import Mathlib

/-!
Verification of the presentation-control helper's core components against a
shallow embedding of its JavaScript sources:

* FileManager          (src/managers/file-manager.js)
* PresentationManager  (src/managers/presentation-manager.js)
* WebSocketServer      (src/drivers/powerpoint-driver.js, third unit)
* the token-rotation path of PresentationControlApp (main process unit)

The embedding is state-passing: every method that mutates `this` becomes a
function from the old state (plus explicit oracles for filesystem and
AppleScript-driver behaviour) to the new state together with its return
value.  Fallible calls (`await` on a driver, `fs` calls) are passed in as
`Except String _` values describing what the external call did at that
moment; a JavaScript `throw` is `.error`, a normal return is `.ok`.
-/

/-- JavaScript's remainder operator on integers: truncated division, the
result carries the sign of the dividend.  Used in FileManager.nextFile. -/
def jsRem (a b : Int) : Int := if 0 ≤ a then a % b else -((-a) % b)

/-- Suffix of a character list starting at its last dot, if it has one. -/
def lastDotSuffix : List Char → Option (List Char)
  | [] => none
  | c :: rest =>
    match lastDotSuffix rest with
    | some s => some s
    | none => if c = '.' then some (c :: rest) else none

/-- Node's path.extname applied to a plain basename: the substring from the
last dot to the end, except that a dot at position 0 (dotfile) or no dot at
all gives the empty string. -/
def extname (name : String) : String :=
  match name.data with
  | [] => ""
  | _ :: rest =>
    match lastDotSuffix rest with
    | some s => String.mk s
    | none => ""

/-- ASCII lowercase of one character, as String.prototype.toLowerCase acts
on the ASCII range (the only range supported extensions use). -/
def lowerChar (c : Char) : Char :=
  if 65 ≤ c.toNat ∧ c.toNat ≤ 90 then Char.ofNat (c.toNat + 32) else c

/-- Model of String.prototype.toLowerCase. -/
def lowerStr (s : String) : String := String.mk (s.data.map lowerChar)

/-- One entry of fs.readdir(folder, (withFileTypes)) as consumed by
FileManager.scanFiles: a basename plus its regular-file flag. -/
structure DirEntry where
  name : String
  isFile : Bool
deriving DecidableEq

/-- The file record FileManager.scanFiles builds per matching entry. -/
structure PresentationFile where
  name : String
  path : String
  extension : String
  size : Nat
  modified : Nat
  type : String
deriving DecidableEq

/-- State of a FileManager instance (file-manager.js constructor).  The
chokidar watcher handle is omitted: it only registers callbacks and holds no
state the claims mention. -/
structure FileManager where
  currentFolder : Option String
  files : List PresentationFile
  currentFileIndex : Int
  supportedExtensions : List String
deriving DecidableEq

/-- The constructor's initial state. -/
def FileManager.init : FileManager :=
  { currentFolder := none
    files := []
    currentFileIndex := -1
    supportedExtensions := [".key", ".pptx", ".ppt"] }

/-- FileManager.getFileType: extension to application-type tag. -/
def FileManager.getFileType (extension : String) : String :=
  match extension with
  | ".key" => "keynote"
  | ".pptx" | ".ppt" => "powerpoint"
  | _ => "unknown"

/-- The record pushed for one directory entry (scanFiles loop body).
path.join(folder, name) is modelled as folder ++ "/" ++ name; stat yields
(size, mtime) and is assumed to succeed on listed entries. -/
def FileManager.mkEntry (folder : String) (stat : String → Nat × Nat)
    (e : DirEntry) : PresentationFile :=
  let ext := lowerStr (extname e.name)
  let fullPath := folder ++ "/" ++ e.name
  { name := e.name
    path := fullPath
    extension := ext
    size := (stat fullPath).1
    modified := (stat fullPath).2
    type := FileManager.getFileType ext }

/-- The scanFiles filter: regular file with a supported extension. -/
def FileManager.keep (supported : List String) (e : DirEntry) : Bool :=
  e.isFile && supported.contains (lowerStr (extname e.name))

/-- FileManager.scanFiles.  readdir is the outcome of the fs.readdir call
(an exception empties the list via the catch block); nameLe models the
comparator a.name.localeCompare(b.name) being at most 0, and the stable
Array.sort is modelled by insertion sort. -/
def FileManager.scanFiles (s : FileManager)
    (readdir : Except String (List DirEntry)) (stat : String → Nat × Nat)
    (nameLe : String → String → Bool) : FileManager :=
  match s.currentFolder with
  | none => { s with files := [] }
  | some folder =>
    if folder = "" then { s with files := [] }
    else
      match readdir with
      | .error _ => { s with files := [] }
      | .ok entries =>
        let presentationFiles :=
          (entries.filter (FileManager.keep s.supportedExtensions)).map
            (FileManager.mkEntry folder stat)
        { s with files :=
            presentationFiles.insertionSort (fun a b => nameLe a.name b.name = true) }

/-- FileManager.setFolder: record the folder, reset the cursor, rescan.
Stopping and restarting the watcher has no modelled effect. -/
def FileManager.setFolder (s : FileManager) (folderPath : String)
    (readdir : Except String (List DirEntry)) (stat : String → Nat × Nat)
    (nameLe : String → String → Bool) : FileManager :=
  FileManager.scanFiles
    { s with currentFolder := some folderPath, currentFileIndex := -1 }
    readdir stat nameLe

/-- FileManager.getFiles. -/
def FileManager.getFiles (s : FileManager) : List PresentationFile := s.files

/-- FileManager.setCurrentFile: findIndex by path; on a hit move the cursor
and return the entry, otherwise return null and leave the state alone. -/
def FileManager.setCurrentFile (s : FileManager) (filePath : String) :
    Option PresentationFile × FileManager :=
  match s.files.findIdx? (fun f => f.path == filePath) with
  | some index => (s.files[index]?, { s with currentFileIndex := (index : Int) })
  | none => (none, s)

/-- Array indexing this.files[i] (undefined outside the range). -/
def FileManager.elemAt (s : FileManager) (i : Int) : Option PresentationFile :=
  if 0 ≤ i then s.files[i.toNat]? else none

/-- FileManager.nextFile: circular advance, null on an empty list. -/
def FileManager.nextFile (s : FileManager) : Option PresentationFile × FileManager :=
  if s.files.length = 0 then (none, s)
  else
    let i := jsRem (s.currentFileIndex + 1) (s.files.length : Int)
    (FileManager.elemAt s i, { s with currentFileIndex := i })

/-- FileManager.prevFile: circular retreat, null on an empty list. -/
def FileManager.prevFile (s : FileManager) : Option PresentationFile × FileManager :=
  if s.files.length = 0 then (none, s)
  else
    let i := if s.currentFileIndex ≤ 0 then (s.files.length : Int) - 1
             else s.currentFileIndex - 1
    (FileManager.elemAt s i, { s with currentFileIndex := i })

/-- FileManager.getFileByIndex. -/
def FileManager.getFileByIndex (s : FileManager) (index : Int) :
    Option PresentationFile × FileManager :=
  if 0 ≤ index ∧ index < (s.files.length : Int) then
    (s.files[index.toNat]?, { s with currentFileIndex := index })
  else (none, s)

/-- FileManager.getCurrentFileIndex. -/
def FileManager.getCurrentFileIndex (s : FileManager) : Int := s.currentFileIndex

/-- k-fold application of nextFile (discarding the returned entries). -/
def FileManager.nextN : Nat → FileManager → FileManager
  | 0, s => s
  | k + 1, s => FileManager.nextN k (FileManager.nextFile s).2

theorem FileManager.nextFile_files (s : FileManager) :
    (FileManager.nextFile s).2.files = s.files := by
  unfold FileManager.nextFile
  split <;> rfl

theorem FileManager.nextFile_index (s : FileManager)
    (hn : s.files.length ≠ 0) (h : -1 ≤ s.currentFileIndex) :
    (FileManager.nextFile s).2.currentFileIndex
      = (s.currentFileIndex + 1) % (s.files.length : Int) := by
  unfold FileManager.nextFile jsRem
  rw [if_neg hn, if_pos (by omega)]

theorem FileManager.nextN_index (k : Nat) (s : FileManager)
    (hn : s.files.length ≠ 0) (h0 : 0 ≤ s.currentFileIndex)
    (h1 : s.currentFileIndex < (s.files.length : Int)) :
    (FileManager.nextN k s).currentFileIndex
      = (s.currentFileIndex + k) % (s.files.length : Int) := by
  induction k generalizing s with
  | zero =>
    simpa [FileManager.nextN] using (Int.emod_eq_of_lt h0 h1).symm
  | succ k ih =>
    have hlen : (0 : Int) < (s.files.length : Int) := by
      exact_mod_cast Nat.pos_of_ne_zero hn
    have hne : ((s.files.length : Int)) ≠ 0 := by omega
    have hni := FileManager.nextFile_index s hn (by omega)
    have hfiles := FileManager.nextFile_files s
    have hnonneg : 0 ≤ (s.currentFileIndex + 1) % (s.files.length : Int) :=
      Int.emod_nonneg _ hne
    have hlt : (s.currentFileIndex + 1) % (s.files.length : Int)
        < (s.files.length : Int) := Int.emod_lt_of_pos _ hlen
    have := ih (FileManager.nextFile s).2 (by rw [hfiles]; exact hn)
      (by rw [hni]; exact hnonneg) (by rw [hni, hfiles]; exact hlt)
    rw [FileManager.nextN, this, hni, hfiles]
    have key : ∀ x y n : Int, (x % n + y) % n = (x + y) % n := by
      intro x y n
      conv_lhs => rw [Int.add_emod]
      rw [Int.emod_emod_of_dvd _ dvd_rfl, ← Int.add_emod]
    rw [key]
    congr 1
    push_cast
    ring

/-- Sample file used in the concrete FileManager cursor scenarios. -/
def sampleFile : PresentationFile :=
  { name := "a.key", path := "/p/a.key", extension := ".key",
    size := 0, modified := 0, type := "keynote" }

/-- A registry holding one file with the cursor in its initial none
position (currentFileIndex = -1), as setFolder leaves it. -/
def cursorNoneState : FileManager :=
  { currentFolder := some "/p", files := [sampleFile], currentFileIndex := -1,
    supportedExtensions := [".key", ".pptx", ".ppt"] }

/-- Claim C5 (counterexample): on a one-file list with the cursor at its
initial position -1 (a reachable cursor position: setFolder resets to -1),
a single advance moves the cursor to 0, not back to -1, so N advances do
not return every starting cursor position to itself. -/
theorem nextFile_not_circular_from_none :
    (FileManager.nextN 1 cursorNoneState).currentFileIndex = 0 ∧
      ((0 : Int) = -1 → False) := by
  constructor
  · rfl
  · intro h
    cases h

/-- Claim C5 (amended): on a list of size N at least 1, advancing N times
returns the cursor to its starting position for every in-list starting
position 0 <= i < N; from the no-selection position -1, N advances land on
N - 1 instead; retreat from index 0 moves to N - 1; and on an empty list
both operations are no-ops returning null. -/
theorem cursor_circularity (s : FileManager) (t : FileManager) (e : FileManager)
    (hn : s.files.length ≠ 0) (h0 : 0 ≤ s.currentFileIndex)
    (h1 : s.currentFileIndex < (s.files.length : Int))
    (ht : t.files.length ≠ 0) (ht0 : t.currentFileIndex = 0)
    (he : e.files = []) :
    (FileManager.nextN s.files.length s).currentFileIndex = s.currentFileIndex ∧
    (FileManager.prevFile t).2.currentFileIndex = (t.files.length : Int) - 1 ∧
    FileManager.nextFile e = (none, e) ∧
    FileManager.prevFile e = (none, e) := by
  refine ⟨?_, ?_, ?_, ?_⟩
  · rw [FileManager.nextN_index _ s hn h0 h1]
    have h2 := Int.add_mul_emod_self_left (a := s.currentFileIndex)
      (b := (s.files.length : Int)) (c := 1)
    rw [mul_one] at h2
    rw [h2, Int.emod_eq_of_lt h0 h1]
  · unfold FileManager.prevFile
    rw [if_neg ht, ht0]
    simp
  · unfold FileManager.nextFile
    rw [if_pos (by simp [he])]
  · unfold FileManager.prevFile
    rw [if_pos (by simp [he])]

/-- Lexicographic comparison of character lists by code point. -/
def charListLe : List Char → List Char → Bool
  | [], _ => true
  | _ :: _, [] => false
  | a :: as, b :: bs =>
    if a.toNat < b.toNat then true
    else if b.toNat < a.toNat then false
    else charListLe as bs

/-- Name comparison used in the concrete scan scenario: code-point order,
which is what localeCompare yields on these plain ASCII names. -/
def asciiNameLe (a b : String) : Bool := charListLe a.data b.data

theorem charListLe_total : ∀ as bs, charListLe as bs = true ∨ charListLe bs as = true
  | [], _ => Or.inl (by simp [charListLe])
  | _ :: _, [] => Or.inr (by simp [charListLe])
  | a :: as, b :: bs => by
    rcases Nat.lt_trichotomy a.toNat b.toNat with h | h | h
    · left
      simp [charListLe, h]
    · rcases charListLe_total as bs with ih | ih
      · left
        simp [charListLe, h, ih]
      · right
        simp [charListLe, h, ih]
    · right
      simp [charListLe, h]

theorem charListLe_trans :
    ∀ as bs cs, charListLe as bs = true → charListLe bs cs = true →
      charListLe as cs = true
  | [], _, _, _, _ => by simp [charListLe]
  | _ :: _, [], _, h1, _ => by simp [charListLe] at h1
  | _ :: _, _ :: _, [], _, h2 => by simp [charListLe] at h2
  | a :: as, b :: bs, c :: cs, h1, h2 => by
    simp only [charListLe] at h1 h2 ⊢
    rcases Nat.lt_trichotomy a.toNat b.toNat with hab | hab | hab
    · rcases Nat.lt_trichotomy b.toNat c.toNat with hbc | hbc | hbc
      · rw [if_pos (by omega)]
      · rw [if_pos (by omega)]
      · rw [if_neg (by omega), if_pos hbc] at h2
        cases h2
    · rw [if_neg (by omega), if_neg (by omega)] at h1
      rcases Nat.lt_trichotomy b.toNat c.toNat with hbc | hbc | hbc
      · rw [if_pos (by omega)]
      · rw [if_neg (by omega), if_neg (by omega)] at h2
        rw [if_neg (by omega), if_neg (by omega)]
        exact charListLe_trans as bs cs h1 h2
      · rw [if_neg (by omega), if_pos hbc] at h2
        cases h2
    · rw [if_neg (by omega), if_pos hab] at h1
      cases h1

theorem asciiNameLe_total (a b : String) :
    asciiNameLe a b = true ∨ asciiNameLe b a = true :=
  charListLe_total a.data b.data

theorem asciiNameLe_trans (a b c : String) (h1 : asciiNameLe a b = true)
    (h2 : asciiNameLe b c = true) : asciiNameLe a c = true :=
  charListLe_trans a.data b.data c.data h1 h2

/-- Stat oracle for the concrete scan scenario. -/
def statZero : String → Nat × Nat := fun _ => (0, 0)

/-- Directory listing for the concrete scan scenario, in on-disk order. -/
def scenarioEntries : List DirEntry :=
  [⟨"c.ppt", true⟩, ⟨"a.key", true⟩, ⟨"b.pptx", true⟩]

theorem setFolder_files_eq (s : FileManager) (folder : String)
    (entries : List DirEntry) (stat : String → Nat × Nat)
    (nameLe : String → String → Bool) (hfolder : folder ≠ "") :
    (FileManager.setFolder s folder (.ok entries) stat nameLe).files
      = ((entries.filter (FileManager.keep s.supportedExtensions)).map
          (FileManager.mkEntry folder stat)).insertionSort
          (fun a b => nameLe a.name b.name = true) := by
  unfold FileManager.setFolder FileManager.scanFiles
  simp [hfolder]

/-- Claim C6: after setFolder the registry holds exactly the regular files
with a supported extension, sorted by name, without duplicate paths (given
that directory entries have pairwise distinct names, as on a real
filesystem); and the concrete folder a.key, b.pptx, c.ppt scans to those
three entries in name order tagged keynote, powerpoint, powerpoint. -/
theorem setFolder_scan_spec (s : FileManager) (folder : String)
    (entries : List DirEntry) (stat : String → Nat × Nat)
    (nameLe : String → String → Bool) (hfolder : folder ≠ "")
    (htot : ∀ a b, nameLe a b = true ∨ nameLe b a = true)
    (htrans : ∀ a b c, nameLe a b = true → nameLe b c = true → nameLe a c = true)
    (hnodup : (entries.map DirEntry.name).Nodup) :
    (∀ f, f ∈ (FileManager.setFolder s folder (.ok entries) stat nameLe).files ↔
        ∃ e, e ∈ entries ∧ FileManager.keep s.supportedExtensions e = true ∧
          f = FileManager.mkEntry folder stat e) ∧
    ((FileManager.setFolder s folder (.ok entries) stat nameLe).files.Sorted
        (fun a b => nameLe a.name b.name = true)) ∧
    ((FileManager.setFolder s folder (.ok entries) stat nameLe).files.map
        PresentationFile.path).Nodup ∧
    ((FileManager.setFolder FileManager.init "/p" (.ok scenarioEntries) statZero
        asciiNameLe).files.map (fun f => (f.name, f.type))
      = [("a.key", "keynote"), ("b.pptx", "powerpoint"), ("c.ppt", "powerpoint")]) := by
  rw [setFolder_files_eq s folder entries stat nameLe hfolder]
  refine ⟨?_, ?_, ?_, ?_⟩
  · intro f
    rw [List.mem_insertionSort]
    simp only [List.mem_map, List.mem_filter]
    constructor
    · rintro ⟨e, ⟨he, hk⟩, rfl⟩
      exact ⟨e, he, hk, rfl⟩
    · rintro ⟨e, he, hk, rfl⟩
      exact ⟨e, ⟨he, hk⟩, rfl⟩
  · haveI : IsTotal PresentationFile (fun a b => nameLe a.name b.name = true) :=
      ⟨fun a b => htot a.name b.name⟩
    haveI : IsTrans PresentationFile (fun a b => nameLe a.name b.name = true) :=
      ⟨fun a b c hab hbc => htrans a.name b.name c.name hab hbc⟩
    exact List.sorted_insertionSort _ _
  · have hperm :
        List.Perm
          ((((entries.filter (FileManager.keep s.supportedExtensions)).map
              (FileManager.mkEntry folder stat)).insertionSort
              (fun a b => nameLe a.name b.name = true)).map PresentationFile.path)
          (((entries.filter (FileManager.keep s.supportedExtensions)).map
              (FileManager.mkEntry folder stat)).map PresentationFile.path) :=
      (List.perm_insertionSort _ _).map _
    rw [List.Perm.nodup_iff hperm, List.map_map]
    have heq : (PresentationFile.path ∘ FileManager.mkEntry folder stat)
        = fun e : DirEntry => folder ++ "/" ++ e.name := rfl
    rw [heq]
    have hsub : List.Sublist
        ((entries.filter (FileManager.keep s.supportedExtensions)).map
          (fun e : DirEntry => folder ++ "/" ++ e.name))
        (entries.map (fun e : DirEntry => folder ++ "/" ++ e.name)) :=
      (List.filter_sublist entries).map _
    refine hsub.nodup ?_
    have hmm : entries.map (fun e : DirEntry => folder ++ "/" ++ e.name)
        = (entries.map DirEntry.name).map (fun n => folder ++ "/" ++ n) := by
      rw [List.map_map]
      rfl
    rw [hmm]
    refine hnodup.map ?_
    intro a b hab
    have hd := congrArg String.data hab
    simp only [String.data_append] at hd
    exact congrArg String.mk (List.append_cancel_left hd)
  · decide

/-- The two driver variants the manager constructs (keynote-driver.js and
powerpoint-driver.js); getDriverForFile selects among them by type tag. -/
inductive Driver
  | keynote
  | powerpoint
deriving DecidableEq

/-- Result object of a driver's openFile (success flag plus message). -/
structure OpenResult where
  success : Bool
  message : String
deriving DecidableEq

/-- Result object of a driver's getCurrentSlideInfo. -/
structure SlideInfo where
  currentSlide : Int
  totalSlides : Int
deriving DecidableEq

/-- State of a PresentationManager instance (constructor, lines 6-17). -/
structure PresentationManager where
  fileManager : FileManager
  currentDriver : Option Driver
  currentFile : Option PresentationFile
  isPresenting : Bool
  currentSlideIndex : Int
  totalSlides : Int
  slideNotes : String
deriving DecidableEq

/-- The constructor's initial session state over a given file manager. -/
def PresentationManager.mkInit (fm : FileManager) : PresentationManager :=
  { fileManager := fm
    currentDriver := none
    currentFile := none
    isPresenting := false
    currentSlideIndex := 0
    totalSlides := 0
    slideNotes := "" }

/-- PresentationManager.getDriverForFile: type-tag dispatch. -/
def PresentationManager.getDriverForFile (file : PresentationFile) : Option Driver :=
  match file.type with
  | "keynote" => some Driver.keynote
  | "powerpoint" => some Driver.powerpoint
  | _ => none

/-- PresentationManager.updatePresentationInfo.  The driver's
getCurrentSlideInfo and getSlideNotes calls are given as Except values; a
failing info fetch is swallowed (outer catch), a failing notes fetch
degrades to the empty string (inner catch). -/
def PresentationManager.updatePresentationInfo (s : PresentationManager)
    (slideInfo : Except String SlideInfo) (notes : Except String String) :
    PresentationManager :=
  match s.currentDriver with
  | none => s
  | some _ =>
    match slideInfo with
    | .error _ => s
    | .ok info =>
      let s1 := { s with currentSlideIndex := info.currentSlide - 1
                         totalSlides := info.totalSlides }
      match notes with
      | .ok n => { s1 with slideNotes := n }
      | .error _ => { s1 with slideNotes := "" }

/-- External outcomes consumed by one PresentationManager.openFile call:
the fs existence check, the driver's openFile, and the info/notes fetches
of the follow-up updatePresentationInfo. -/
structure OpenEnv where
  fileExists : Bool
  driverOpen : Except String OpenResult
  slideInfo : Except String SlideInfo
  notes : Except String String

/-- PresentationManager.openFile (lines 23-61), including its catch block:
a driver throw is converted into a success-false result, so the function is
total and always yields a structured OpenResult. -/
def PresentationManager.openFile (s : PresentationManager) (filePath : String)
    (env : OpenEnv) : OpenResult × PresentationManager :=
  if env.fileExists = false then
    ({ success := false, message := "File not found or invalid" }, s)
  else
    match FileManager.setCurrentFile s.fileManager filePath with
    | (none, fm1) =>
      ({ success := false, message := "File not in current folder" },
       { s with fileManager := fm1 })
    | (some file, fm1) =>
      let s1 := { s with fileManager := fm1 }
      match PresentationManager.getDriverForFile file with
      | none => ({ success := false, message := "Unsupported file type" }, s1)
      | some driver =>
        match env.driverOpen with
        | .error e => ({ success := false, message := e }, s1)
        | .ok result =>
          if result.success then
            let s2 := { s1 with currentDriver := some driver
                                currentFile := some file
                                isPresenting := false }
            (result, PresentationManager.updatePresentationInfo s2 env.slideInfo env.notes)
          else (result, s1)

/-- PresentationManager.startPresentation.  A guard failure or driver throw
surfaces as an error before any session field changes. -/
def PresentationManager.startPresentation (s : PresentationManager)
    (drv : Except String Unit) (slideInfo : Except String SlideInfo)
    (notes : Except String String) : Except String PresentationManager :=
  if s.currentDriver = none ∨ s.currentFile = none then
    .error "No presentation file is currently open"
  else
    match drv with
    | .error e => .error e
    | .ok _ =>
      .ok (PresentationManager.updatePresentationInfo
        { s with isPresenting := true } slideInfo notes)

/-- PresentationManager.stopPresentation. -/
def PresentationManager.stopPresentation (s : PresentationManager)
    (drv : Except String Unit) : Except String PresentationManager :=
  if s.currentDriver = none then .error "No presentation is currently active"
  else
    match drv with
    | .error e => .error e
    | .ok _ => .ok { s with isPresenting := false }

/-- PresentationManager.closePresentation (lines 97-112).  On success the
source resets currentDriver, currentFile, isPresenting, currentSlideIndex
and totalSlides; slideNotes is not among the fields it assigns. -/
def PresentationManager.closePresentation (s : PresentationManager)
    (drv : Except String Unit) : Except String PresentationManager :=
  if s.currentDriver = none then .error "No presentation is currently open"
  else
    match drv with
    | .error e => .error e
    | .ok _ =>
      .ok { s with currentDriver := none
                   currentFile := none
                   isPresenting := false
                   currentSlideIndex := 0
                   totalSlides := 0 }

/-- PresentationManager.nextSlide. -/
def PresentationManager.nextSlide (s : PresentationManager)
    (drv : Except String Unit) (slideInfo : Except String SlideInfo)
    (notes : Except String String) : Except String PresentationManager :=
  if s.currentDriver = none then .error "No presentation is currently open"
  else
    match drv with
    | .error e => .error e
    | .ok _ => .ok (PresentationManager.updatePresentationInfo s slideInfo notes)

/-- PresentationManager.prevSlide. -/
def PresentationManager.prevSlide (s : PresentationManager)
    (drv : Except String Unit) (slideInfo : Except String SlideInfo)
    (notes : Except String String) : Except String PresentationManager :=
  if s.currentDriver = none then .error "No presentation is currently open"
  else
    match drv with
    | .error e => .error e
    | .ok _ => .ok (PresentationManager.updatePresentationInfo s slideInfo notes)

/-- PresentationManager.setFolder (lines 250-260): delegate to the file
manager, then reset every session field including slideNotes. -/
def PresentationManager.setFolder (s : PresentationManager) (folderPath : String)
    (readdir : Except String (List DirEntry)) (stat : String → Nat × Nat)
    (nameLe : String → String → Bool) : PresentationManager :=
  { s with fileManager := FileManager.setFolder s.fileManager folderPath readdir stat nameLe
           currentDriver := none
           currentFile := none
           isPresenting := false
           currentSlideIndex := 0
           totalSlides := 0
           slideNotes := "" }

/-- The currentFile summary inside a status snapshot. -/
structure CurrentFileStatus where
  name : String
  path : String
  type : String
  index : Int
deriving DecidableEq

/-- The composite snapshot getStatus returns. -/
structure StatusSnapshot where
  currentFile : Option CurrentFileStatus
  isPresenting : Bool
  currentSlide : Int
  totalSlides : Int
  slideNotes : String
  folder : Option String
  fileCount : Nat
  driverType : Option String
deriving DecidableEq

/-- Whether a driver class defines getCurrentSlideInfo.  Both shipped
drivers do: keynote-driver.js line 506 and powerpoint-driver.js line 139. -/
def supportsSlideInfo : Driver → Bool
  | Driver.keynote => true
  | Driver.powerpoint => true

/-- PresentationManager.getStatus (lines 158-192), state-passing.  poll is
the outcome of the real-time getCurrentSlideInfo call, consulted only when
the active driver is the PowerPoint driver instance, a presentation is
running, and that driver has getCurrentSlideInfo; a poll failure falls back
to the cached values. -/
def PresentationManager.getStatus (s : PresentationManager)
    (poll : Except String SlideInfo) : StatusSnapshot × PresentationManager :=
  let currentFileIndex : Int :=
    match s.currentFile with
    | some _ => FileManager.getCurrentFileIndex s.fileManager
    | none => -1
  let realTimeSlideInfo : Option SlideInfo :=
    if s.currentDriver = some Driver.powerpoint ∧ s.isPresenting = true
        ∧ supportsSlideInfo Driver.powerpoint = true then
      match poll with
      | .ok info => some info
      | .error _ => none
    else none
  ({ currentFile :=
       match s.currentFile with
       | some f => some { name := f.name, path := f.path, type := f.type,
                          index := currentFileIndex }
       | none => none
     isPresenting := s.isPresenting
     currentSlide :=
       match realTimeSlideInfo with
       | some info => info.currentSlide
       | none => s.currentSlideIndex + 1
     totalSlides :=
       match realTimeSlideInfo with
       | some info => info.totalSlides
       | none => s.totalSlides
     slideNotes := s.slideNotes
     folder := s.fileManager.currentFolder
     fileCount := (FileManager.getFiles s.fileManager).length
     driverType :=
       match s.currentDriver with
       | some Driver.keynote => some "keynote"
       | some Driver.powerpoint => some "powerpoint"
       | none => none },
   s)

/-- The state a caller observes after an operation that may throw: the new
state on normal return, the unchanged old state when the throw propagated. -/
def stateAfter (r : Except String PresentationManager)
    (s : PresentationManager) : PresentationManager :=
  match r with
  | .ok s1 => s1
  | .error _ => s

/-- The six session fields of the manager, bundled for frame conditions. -/
structure SessionView where
  currentDriver : Option Driver
  currentFile : Option PresentationFile
  isPresenting : Bool
  currentSlideIndex : Int
  totalSlides : Int
  slideNotes : String
deriving DecidableEq

/-- Projection of a manager state onto its session fields. -/
def sessionOf (s : PresentationManager) : SessionView :=
  { currentDriver := s.currentDriver
    currentFile := s.currentFile
    isPresenting := s.isPresenting
    currentSlideIndex := s.currentSlideIndex
    totalSlides := s.totalSlides
    slideNotes := s.slideNotes }

theorem updatePresentationInfo_frame (s : PresentationManager)
    (slideInfo : Except String SlideInfo) (notes : Except String String) :
    (PresentationManager.updatePresentationInfo s slideInfo notes).currentDriver
        = s.currentDriver ∧
    (PresentationManager.updatePresentationInfo s slideInfo notes).currentFile
        = s.currentFile ∧
    (PresentationManager.updatePresentationInfo s slideInfo notes).isPresenting
        = s.isPresenting := by
  cases hd : s.currentDriver with
  | none => simp [PresentationManager.updatePresentationInfo, hd]
  | some d =>
    cases slideInfo with
    | error e => simp [PresentationManager.updatePresentationInfo, hd]
    | ok info =>
      cases notes with
      | error e => simp [PresentationManager.updatePresentationInfo, hd]
      | ok n => simp [PresentationManager.updatePresentationInfo, hd]

theorem updatePresentationInfo_fileManager (s : PresentationManager)
    (slideInfo : Except String SlideInfo) (notes : Except String String) :
    (PresentationManager.updatePresentationInfo s slideInfo notes).fileManager
        = s.fileManager := by
  cases hd : s.currentDriver with
  | none => simp [PresentationManager.updatePresentationInfo, hd]
  | some d =>
    cases slideInfo with
    | error e => simp [PresentationManager.updatePresentationInfo, hd]
    | ok info =>
      cases notes with
      | error e => simp [PresentationManager.updatePresentationInfo, hd]
      | ok n => simp [PresentationManager.updatePresentationInfo, hd]

theorem openFile_failure_session_aux (s : PresentationManager)
    (filePath : String) (env : OpenEnv)
    (hfail : (PresentationManager.openFile s filePath env).1.success = false) :
    sessionOf (PresentationManager.openFile s filePath env).2 = sessionOf s := by
  unfold PresentationManager.openFile at hfail ⊢
  revert hfail
  split
  · intro _
    rfl
  · split
    · intro _
      rfl
    · split
      · intro _
        rfl
      · split
        · intro _
          rfl
        · split
          · intro hfail
            simp_all
          · intro _
            rfl

/-- When the existence check passes, the file manager the caller ends up
with is exactly the one setCurrentFile produced, whatever happens later:
neither the driver dispatch nor the info refresh touches it. -/
theorem openFile_fileManager (s : PresentationManager) (filePath : String)
    (env : OpenEnv) (hexists : env.fileExists = true) :
    (PresentationManager.openFile s filePath env).2.fileManager
      = (FileManager.setCurrentFile s.fileManager filePath).2 := by
  unfold PresentationManager.openFile
  rw [hexists]
  rw [if_neg (by decide : ¬(true = false))]
  split
  · next fm1 heq =>
      rw [heq]
  · next file fm1 heq =>
      rw [heq]
      split
      · rfl
      · split
        · rfl
        · split
          · exact updatePresentationInfo_fileManager _ _ _
          · rfl

/-- Claim C1: every failed openFile call (nonexistent path, file not in the
registry, unsupported file type, driver open failure or throw) returns a
structured success-false result - openFile is a total function by the
enclosing catch - and leaves all six session fields exactly as they were. -/
theorem openFile_failure_frame (s : PresentationManager) (filePath : String)
    (env : OpenEnv)
    (hfail : (PresentationManager.openFile s filePath env).1.success = false) :
    sessionOf (PresentationManager.openFile s filePath env).2 = sessionOf s :=
  openFile_failure_session_aux s filePath env hfail

/-- Claim C1 witness: opening a nonexistent path from the initial state
fails and the session is unchanged. -/
theorem openFile_failure_frame_witness :
    (PresentationManager.openFile (PresentationManager.mkInit FileManager.init)
        "/missing.key"
        { fileExists := false, driverOpen := .ok { success := false, message := "" },
          slideInfo := .error "", notes := .error "" }).1.success = false ∧
    sessionOf (PresentationManager.openFile (PresentationManager.mkInit FileManager.init)
        "/missing.key"
        { fileExists := false, driverOpen := .ok { success := false, message := "" },
          slideInfo := .error "", notes := .error "" }).2
      = sessionOf (PresentationManager.mkInit FileManager.init) :=
  ⟨rfl, openFile_failure_frame _ _ _ rfl⟩

/-- A session with an open keynote presentation and nonempty cached notes,
used to exercise closePresentation. -/
def openSessionState : PresentationManager :=
  { fileManager := cursorNoneState
    currentDriver := some Driver.keynote
    currentFile := some sampleFile
    isPresenting := false
    currentSlideIndex := 2
    totalSlides := 9
    slideNotes := "speaker notes" }

/-- Claim C2: a successful closePresentation resets currentDriver,
currentFile, isPresenting, currentSlideIndex and totalSlides, but the
cached slideNotes text survives: it is NOT restored to its initial empty
value, contrary to the documented full reset. -/
theorem closePresentation_slideNotes_stale :
    stateAfter (PresentationManager.closePresentation openSessionState (.ok ()))
        openSessionState
      = { openSessionState with
            currentDriver := none
            currentFile := none
            isPresenting := false
            currentSlideIndex := 0
            totalSlides := 0 } ∧
    (stateAfter (PresentationManager.closePresentation openSessionState (.ok ()))
        openSessionState).slideNotes = "speaker notes" ∧
    ("speaker notes" = "" → False) := by
  refine ⟨rfl, rfl, ?_⟩
  decide

/-- The session invariant from the data model: if the active driver is
unset, the active file is unset and the presenting flag is down. -/
def SessionInv (s : PresentationManager) : Prop :=
  s.currentDriver = none → s.currentFile = none ∧ s.isPresenting = false

theorem openFile_inv (s : PresentationManager) (filePath : String)
    (env : OpenEnv) (hinv : SessionInv s) :
    SessionInv (PresentationManager.openFile s filePath env).2 := by
  unfold PresentationManager.openFile
  split
  · exact hinv
  · split
    · intro hd
      exact hinv hd
    · split
      · intro hd
        exact hinv hd
      · split
        · intro hd
          exact hinv hd
        · split
          · intro hd
            exfalso
            rw [(updatePresentationInfo_frame _ _ _).1] at hd
            exact Option.noConfusion hd
          · intro hd
            exact hinv hd

/-- Claim C9: every PresentationManager operation - openFile, start, stop,
close, nextSlide, prevSlide, setFolder, getStatus - preserves the session
invariant; for throwing operations the caller observes the unchanged prior
state (stateAfter). -/
theorem session_invariant_preserved (s : PresentationManager)
    (filePath : String) (env : OpenEnv)
    (d1 d2 d3 d4 d5 : Except String Unit)
    (si : Except String SlideInfo) (nt : Except String String)
    (poll : Except String SlideInfo) (folderPath : String)
    (readdir : Except String (List DirEntry)) (stat : String → Nat × Nat)
    (nameLe : String → String → Bool)
    (hinv : SessionInv s) :
    SessionInv (PresentationManager.openFile s filePath env).2 ∧
    SessionInv (stateAfter (PresentationManager.startPresentation s d1 si nt) s) ∧
    SessionInv (stateAfter (PresentationManager.stopPresentation s d2) s) ∧
    SessionInv (stateAfter (PresentationManager.closePresentation s d3) s) ∧
    SessionInv (stateAfter (PresentationManager.nextSlide s d4 si nt) s) ∧
    SessionInv (stateAfter (PresentationManager.prevSlide s d5 si nt) s) ∧
    SessionInv (PresentationManager.setFolder s folderPath readdir stat nameLe) ∧
    SessionInv (PresentationManager.getStatus s poll).2 := by
  refine ⟨openFile_inv s filePath env hinv, ?_, ?_, ?_, ?_, ?_, ?_, ?_⟩
  · unfold PresentationManager.startPresentation
    split
    · exact hinv
    · next h =>
      cases d1 with
      | error e => exact hinv
      | ok u =>
        intro hd
        exfalso
        have hd2 : (PresentationManager.updatePresentationInfo
            { s with isPresenting := true } si nt).currentDriver = none := hd
        rw [(updatePresentationInfo_frame _ _ _).1] at hd2
        exact h (Or.inl hd2)
  · unfold PresentationManager.stopPresentation
    split
    · exact hinv
    · next h =>
      cases d2 with
      | error e => exact hinv
      | ok u =>
        intro hd
        exact absurd hd h
  · unfold PresentationManager.closePresentation
    split
    · exact hinv
    · next h =>
      cases d3 with
      | error e => exact hinv
      | ok u =>
        intro hd
        exact ⟨rfl, rfl⟩
  · unfold PresentationManager.nextSlide
    split
    · exact hinv
    · next h =>
      cases d4 with
      | error e => exact hinv
      | ok u =>
        intro hd
        exfalso
        have hd2 : (PresentationManager.updatePresentationInfo s si nt).currentDriver
            = none := hd
        rw [(updatePresentationInfo_frame _ _ _).1] at hd2
        exact h hd2
  · unfold PresentationManager.prevSlide
    split
    · exact hinv
    · next h =>
      cases d5 with
      | error e => exact hinv
      | ok u =>
        intro hd
        exfalso
        have hd2 : (PresentationManager.updatePresentationInfo s si nt).currentDriver
            = none := hd
        rw [(updatePresentationInfo_frame _ _ _).1] at hd2
        exact h hd2
  · intro hd
    exact ⟨rfl, rfl⟩
  · exact hinv

/-- A stub environment for an openFile call whose existence check fails. -/
def stubOpenEnv : OpenEnv :=
  { fileExists := false
    driverOpen := Except.ok { success := false, message := "" }
    slideInfo := Except.error ""
    notes := Except.error "" }

/-- Claim C9 witness: the invariant holds after each operation from the
freshly constructed manager. -/
theorem session_invariant_preserved_witness :
    SessionInv (PresentationManager.openFile
      (PresentationManager.mkInit FileManager.init) "/x" stubOpenEnv).2 ∧
    SessionInv (stateAfter (PresentationManager.startPresentation
      (PresentationManager.mkInit FileManager.init) (Except.ok ())
      (Except.error "") (Except.error ""))
      (PresentationManager.mkInit FileManager.init)) ∧
    SessionInv (stateAfter (PresentationManager.stopPresentation
      (PresentationManager.mkInit FileManager.init) (Except.ok ()))
      (PresentationManager.mkInit FileManager.init)) ∧
    SessionInv (stateAfter (PresentationManager.closePresentation
      (PresentationManager.mkInit FileManager.init) (Except.ok ()))
      (PresentationManager.mkInit FileManager.init)) ∧
    SessionInv (stateAfter (PresentationManager.nextSlide
      (PresentationManager.mkInit FileManager.init) (Except.ok ())
      (Except.error "") (Except.error ""))
      (PresentationManager.mkInit FileManager.init)) ∧
    SessionInv (stateAfter (PresentationManager.prevSlide
      (PresentationManager.mkInit FileManager.init) (Except.ok ())
      (Except.error "") (Except.error ""))
      (PresentationManager.mkInit FileManager.init)) ∧
    SessionInv (PresentationManager.setFolder
      (PresentationManager.mkInit FileManager.init) "/p" (Except.ok [])
      statZero asciiNameLe) ∧
    SessionInv (PresentationManager.getStatus
      (PresentationManager.mkInit FileManager.init) (Except.error "")).2 :=
  session_invariant_preserved (PresentationManager.mkInit FileManager.init)
    "/x" stubOpenEnv (Except.ok ()) (Except.ok ()) (Except.ok ())
    (Except.ok ()) (Except.ok ()) (Except.error "") (Except.error "")
    (Except.error "") "/p" (Except.ok []) statZero asciiNameLe
    (fun _ => ⟨rfl, rfl⟩)

/-- Claim C10: when openFile fails after the registry lookup succeeded
(unsupported type, driver failure or throw), the registry cursor has
already been moved to the looked-up index by setCurrentFile and stays
there; only the session fields are rolled back, not the cursor. -/
theorem openFile_cursor_moved_on_failure (s : PresentationManager)
    (filePath : String) (env : OpenEnv) (i : Nat)
    (hexists : env.fileExists = true)
    (hfind : s.fileManager.files.findIdx? (fun f => f.path == filePath) = some i)
    (hfail : (PresentationManager.openFile s filePath env).1.success = false) :
    (PresentationManager.openFile s filePath env).2.fileManager.currentFileIndex
        = (i : Int) ∧
    sessionOf (PresentationManager.openFile s filePath env).2 = sessionOf s := by
  constructor
  · rw [openFile_fileManager s filePath env hexists]
    unfold FileManager.setCurrentFile
    rw [hfind]
  · exact openFile_failure_session_aux s filePath env hfail

/-- A manager over the one-file registry, nothing open yet. -/
def idleManagerState : PresentationManager :=
  PresentationManager.mkInit cursorNoneState

/-- Environment for an openFile call where the file exists but the driver's
open throws. -/
def throwingOpenEnv : OpenEnv :=
  { fileExists := true
    driverOpen := Except.error "Failed to open file: boom"
    slideInfo := Except.error ""
    notes := Except.error "" }

/-- Claim C10 witness: the driver throw leaves the session untouched while
the cursor has moved from -1 to the looked-up index 0. -/
theorem openFile_cursor_moved_on_failure_witness :
    throwingOpenEnv.fileExists = true ∧
    idleManagerState.fileManager.files.findIdx?
        (fun f => f.path == "/p/a.key") = some 0 ∧
    (PresentationManager.openFile idleManagerState "/p/a.key"
        throwingOpenEnv).1.success = false ∧
    ((PresentationManager.openFile idleManagerState "/p/a.key"
        throwingOpenEnv).2.fileManager.currentFileIndex = ((0 : Nat) : Int) ∧
      sessionOf (PresentationManager.openFile idleManagerState "/p/a.key"
        throwingOpenEnv).2 = sessionOf idleManagerState) :=
  ⟨rfl, by decide, rfl,
    openFile_cursor_moved_on_failure idleManagerState "/p/a.key"
      throwingOpenEnv 0 rfl (by decide) rfl⟩

/-- A session presenting through the Keynote driver. -/
def keynotePresentingState : PresentationManager :=
  { fileManager := cursorNoneState
    currentDriver := some Driver.keynote
    currentFile := some sampleFile
    isPresenting := true
    currentSlideIndex := 0
    totalSlides := 10
    slideNotes := "" }

/-- Claim C7 (counterexample): the Keynote driver supports live slide
introspection and the session is presenting, yet getStatus reports the
cached slide (1), not the live-polled slide (5): the live-poll preference
is keyed to the PowerPoint driver instance, not to capability. -/
theorem getStatus_keynote_ignores_live_poll :
    supportsSlideInfo Driver.keynote = true ∧
    keynotePresentingState.isPresenting = true ∧
    (PresentationManager.getStatus keynotePresentingState
        (Except.ok { currentSlide := 5, totalSlides := 10 })).1.currentSlide = 1 ∧
    ((1 : Int) = 5 → False) := by
  refine ⟨rfl, rfl, rfl, ?_⟩
  decide

/-- Claim C7 (amended): getStatus reports the live-polled slide position
exactly when the active driver is the PowerPoint driver and a presentation
is running (a failing poll falls back to the cache); in every other case -
including the Keynote driver, which also implements getCurrentSlideInfo -
it reports the cached currentSlideIndex + 1 and totalSlides. -/
theorem getStatus_live_poll_policy (s : PresentationManager)
    (poll : Except String SlideInfo) :
    (PresentationManager.getStatus s poll).1.currentSlide =
      (if s.currentDriver = some Driver.powerpoint ∧ s.isPresenting = true then
        match poll with
        | Except.ok info => info.currentSlide
        | Except.error _ => s.currentSlideIndex + 1
      else s.currentSlideIndex + 1) ∧
    (PresentationManager.getStatus s poll).1.totalSlides =
      (if s.currentDriver = some Driver.powerpoint ∧ s.isPresenting = true then
        match poll with
        | Except.ok info => info.totalSlides
        | Except.error _ => s.totalSlides
      else s.totalSlides) := by
  by_cases hc : s.currentDriver = some Driver.powerpoint ∧ s.isPresenting = true
  · cases poll with
    | ok info =>
      simp [PresentationManager.getStatus, hc.1, hc.2, supportsSlideInfo]
    | error e =>
      simp [PresentationManager.getStatus, hc.1, hc.2, supportsSlideInfo]
  · cases poll with
    | ok info =>
      simp only [PresentationManager.getStatus, supportsSlideInfo]
      rw [if_neg (by simpa using hc), if_neg hc, if_neg hc]
      exact ⟨rfl, rfl⟩
    | error e =>
      simp only [PresentationManager.getStatus, supportsSlideInfo]
      rw [if_neg (by simpa using hc), if_neg hc, if_neg hc]
      exact ⟨rfl, rfl⟩

/-- Claim C8: getStatus is observation only - it returns the state it was
given, and a second call on the resulting state with the same poll outcome
yields the identical snapshot. -/
theorem getStatus_idempotent (s : PresentationManager)
    (poll : Except String SlideInfo) :
    (PresentationManager.getStatus s poll).2 = s ∧
    (PresentationManager.getStatus (PresentationManager.getStatus s poll).2
        poll).1 = (PresentationManager.getStatus s poll).1 :=
  ⟨rfl, rfl⟩

/-- One inbound protocol message, after JSON parsing, keyed by its type
field.  openFile carries an optional filePath (absent models a payload
without that parameter); unknown covers every unrecognized type string. -/
inductive InMsg
  | auth (token : String)
  | ping
  | status
  | listFiles
  | openFile (filePath : Option String)
  | start
  | stop
  | close
  | next
  | prev
  | unknown (type : String)
deriving DecidableEq

/-- Whether a message is the auth command. -/
def InMsg.isAuthMessage : InMsg → Bool
  | InMsg.auth _ => true
  | _ => false

/-- Outbound protocol messages (websocket-server.js response shapes).
Payload fields not referenced by any claim (timestamps, echoed paths) are
kept where they distinguish responses. -/
inductive OutMsg
  | handshake
  | authResult (success : Bool) (message : String)
  | status (st : StatusSnapshot)
  | fileList (files : List PresentationFile)
  | fileOpened (success : Bool) (message : String) (filePath : String)
  | commandResult (command : String) (success : Bool)
  | pong
  | error (message : String)
  | tokenChanged
deriving DecidableEq

/-- Per-connection state: the authenticated flag plus whether the socket's
readyState is OPEN (send and broadcast check it).  lastPing and the remote
address are dropped: only the heartbeat pruning reads them. -/
structure Client where
  authenticated : Bool
  wsOpen : Bool
deriving DecidableEq

/-- State of the WebSocketServer: the client registry (an association list
keyed by connection id, insertion order preserved like the JS Map), the
process-wide auth token, and the presentation manager it drives. -/
structure WebSocketServer where
  clients : List (Nat × Client)
  authToken : String
  presentationManager : PresentationManager
deriving DecidableEq

/-- this.clients.get(clientId). -/
def WebSocketServer.getClient (w : WebSocketServer) (cid : Nat) : Option Client :=
  (w.clients.find? (fun p => p.1 == cid)).map (fun p => p.2)

/-- Mark a client authenticated (client.authenticated = true). -/
def WebSocketServer.setAuthenticated (w : WebSocketServer) (cid : Nat) :
    WebSocketServer :=
  { w with clients := w.clients.map (fun p =>
      if p.1 == cid then (p.1, { p.2 with authenticated := true }) else p) }

/-- WebSocketServer.send: deliver to one client if it is registered and its
socket is open, else drop silently. -/
def WebSocketServer.send (w : WebSocketServer) (cid : Nat) (m : OutMsg) :
    List (Nat × OutMsg) :=
  match WebSocketServer.getClient w cid with
  | some c => if c.wsOpen then [(cid, m)] else []
  | none => []

/-- WebSocketServer.broadcast: deliver to every authenticated client whose
socket is open. -/
def WebSocketServer.broadcast (w : WebSocketServer) (m : OutMsg) :
    List (Nat × OutMsg) :=
  w.clients.filterMap (fun p =>
    if p.2.authenticated && p.2.wsOpen then some (p.1, m) else none)

/-- External outcomes consumed by one handled command: the openFile
environment, the five driver calls, the info/notes refresh, and the status
poll used by sendStatus/broadcastStatus. -/
structure CmdEnv where
  openEnv : OpenEnv
  drvStart : Except String Unit
  drvStop : Except String Unit
  drvClose : Except String Unit
  drvNext : Except String Unit
  drvPrev : Except String Unit
  opSlideInfo : Except String SlideInfo
  opNotes : Except String String
  statusPoll : Except String SlideInfo

/-- WebSocketServer.sendStatus: poll the manager and send the snapshot to
one client. -/
def WebSocketServer.sendStatus (w : WebSocketServer) (cid : Nat)
    (env : CmdEnv) : WebSocketServer × List (Nat × OutMsg) :=
  let r := PresentationManager.getStatus w.presentationManager env.statusPoll
  let w1 := { w with presentationManager := r.2 }
  (w1, WebSocketServer.send w1 cid (OutMsg.status r.1))

/-- WebSocketServer.broadcastStatus: poll once and fan the snapshot out to
all authenticated open clients. -/
def WebSocketServer.broadcastStatus (w : WebSocketServer) (env : CmdEnv) :
    WebSocketServer × List (Nat × OutMsg) :=
  let r := PresentationManager.getStatus w.presentationManager env.statusPoll
  let w1 := { w with presentationManager := r.2 }
  (w1, WebSocketServer.broadcast w1 (OutMsg.status r.1))

/-- WebSocketServer.handlePresentationCommand.  A thrown error is returned
as .error and caught by handleMessage; every throw in the source happens
before any state mutation or send, so the error carries no partial state. -/
def WebSocketServer.handlePresentationCommand (w : WebSocketServer)
    (cid : Nat) (m : InMsg) (env : CmdEnv) :
    Except String (WebSocketServer × List (Nat × OutMsg)) :=
  match m with
  | InMsg.ping => .ok (w, WebSocketServer.send w cid OutMsg.pong)
  | InMsg.status => .ok (WebSocketServer.sendStatus w cid env)
  | InMsg.listFiles =>
    .ok (w, WebSocketServer.send w cid
      (OutMsg.fileList (FileManager.getFiles w.presentationManager.fileManager)))
  | InMsg.openFile filePath? =>
    match filePath? with
    | none => .error "filePath parameter required"
    | some filePath =>
      let r := PresentationManager.openFile w.presentationManager filePath env.openEnv
      let w1 := { w with presentationManager := r.2 }
      let out1 := WebSocketServer.send w1 cid
        (OutMsg.fileOpened r.1.success r.1.message filePath)
      let b := WebSocketServer.broadcastStatus w1 env
      .ok (b.1, out1 ++ b.2)
  | InMsg.start =>
    match PresentationManager.startPresentation w.presentationManager
        env.drvStart env.opSlideInfo env.opNotes with
    | .error e => .error e
    | .ok pm1 =>
      let w1 := { w with presentationManager := pm1 }
      let b := WebSocketServer.broadcastStatus w1 env
      .ok (b.1, WebSocketServer.send w1 cid (OutMsg.commandResult "start" true) ++ b.2)
  | InMsg.stop =>
    match PresentationManager.stopPresentation w.presentationManager env.drvStop with
    | .error e => .error e
    | .ok pm1 =>
      let w1 := { w with presentationManager := pm1 }
      let b := WebSocketServer.broadcastStatus w1 env
      .ok (b.1, WebSocketServer.send w1 cid (OutMsg.commandResult "stop" true) ++ b.2)
  | InMsg.close =>
    match PresentationManager.closePresentation w.presentationManager env.drvClose with
    | .error e => .error e
    | .ok pm1 =>
      let w1 := { w with presentationManager := pm1 }
      let b := WebSocketServer.broadcastStatus w1 env
      .ok (b.1, WebSocketServer.send w1 cid (OutMsg.commandResult "close" true) ++ b.2)
  | InMsg.next =>
    match PresentationManager.nextSlide w.presentationManager env.drvNext
        env.opSlideInfo env.opNotes with
    | .error e => .error e
    | .ok pm1 =>
      let w1 := { w with presentationManager := pm1 }
      let b := WebSocketServer.broadcastStatus w1 env
      .ok (b.1, WebSocketServer.send w1 cid (OutMsg.commandResult "next" true) ++ b.2)
  | InMsg.prev =>
    match PresentationManager.prevSlide w.presentationManager env.drvPrev
        env.opSlideInfo env.opNotes with
    | .error e => .error e
    | .ok pm1 =>
      let w1 := { w with presentationManager := pm1 }
      let b := WebSocketServer.broadcastStatus w1 env
      .ok (b.1, WebSocketServer.send w1 cid (OutMsg.commandResult "prev" true) ++ b.2)
  | InMsg.auth _ => .error "Unknown command: auth"
  | InMsg.unknown t => .error ("Unknown command: " ++ t)

/-- WebSocketServer.handleMessage (lines 767-808): unregistered clients are
ignored; auth is handled first (success promotes the connection and pushes
a status snapshot after the authResult); every other message from an
unauthenticated connection draws the Authentication-required error; then
commands dispatch with their thrown errors caught and reported. -/
def WebSocketServer.handleMessage (w : WebSocketServer) (cid : Nat)
    (m : InMsg) (env : CmdEnv) : WebSocketServer × List (Nat × OutMsg) :=
  match WebSocketServer.getClient w cid with
  | none => (w, [])
  | some client =>
    match m with
    | InMsg.auth token =>
      if token = w.authToken then
        let w1 := WebSocketServer.setAuthenticated w cid
        let r := WebSocketServer.sendStatus w1 cid env
        (r.1, WebSocketServer.send w1 cid
          (OutMsg.authResult true "Authentication successful") ++ r.2)
      else
        (w, WebSocketServer.send w cid
          (OutMsg.authResult false "Invalid authentication token"))
    | _ =>
      if client.authenticated = false then
        (w, WebSocketServer.send w cid (OutMsg.error "Authentication required"))
      else
        match WebSocketServer.handlePresentationCommand w cid m env with
        | .ok r => r
        | .error e =>
          (w, WebSocketServer.send w cid (OutMsg.error ("Command failed: " ++ e)))

/-- The connection handler (server start, lines 720-758): register the new
client unauthenticated and send the handshake notice. -/
def WebSocketServer.onConnection (w : WebSocketServer) (cid : Nat) :
    WebSocketServer × List (Nat × OutMsg) :=
  let w1 := { w with clients :=
    (cid, { authenticated := false, wsOpen := true }) :: w.clients }
  (w1, [(cid, OutMsg.handshake)])

/-- WebSocketServer.disconnectAllClients (lines 945-957): notify every open
client of the rotation, close its socket, then clear the registry. -/
def WebSocketServer.disconnectAllClients (w : WebSocketServer) :
    WebSocketServer × List (Nat × OutMsg) :=
  let outs := w.clients.filterMap (fun p =>
    if p.2.wsOpen then some (p.1, OutMsg.tokenChanged) else none)
  ({ w with clients := [] }, outs)

/-- The token-rotation path of PresentationControlApp.regenerateAuthToken:
install the freshly generated token on the server, then force-disconnect
every client.  The token generation itself lives in the external
TokenManager, so the new token is a parameter. -/
def WebSocketServer.regenerateAuthToken (w : WebSocketServer)
    (newToken : String) : WebSocketServer × List (Nat × OutMsg) :=
  WebSocketServer.disconnectAllClients { w with authToken := newToken }

/-- Claim C3: any non-auth message on a connection that has not completed a
successful auth draws the Authentication-required error, dispatches no
command, and changes nothing: the whole server state - File Registry,
Session, and the client registry with the connection still open and
unauthenticated - is returned exactly as it was. -/
theorem handleMessage_auth_gate (w : WebSocketServer) (cid : Nat) (c : Client)
    (m : InMsg) (env : CmdEnv)
    (hc : WebSocketServer.getClient w cid = some c)
    (hauth : c.authenticated = false)
    (hopen : c.wsOpen = true)
    (hm : InMsg.isAuthMessage m = false) :
    WebSocketServer.handleMessage w cid m env
      = (w, [(cid, OutMsg.error "Authentication required")]) := by
  unfold WebSocketServer.handleMessage
  rw [hc]
  cases m <;> first
    | (simp [hauth, WebSocketServer.send, hc, hopen]; done)
    | simp [InMsg.isAuthMessage] at hm

/-- A one-client server whose connection has not yet authenticated. -/
def unauthServerState : WebSocketServer :=
  { clients := [(0, { authenticated := false, wsOpen := true })]
    authToken := "tok"
    presentationManager := PresentationManager.mkInit FileManager.init }

/-- Stub environment for a command handled by the protocol server. -/
def stubCmdEnv : CmdEnv :=
  { openEnv := stubOpenEnv
    drvStart := Except.ok ()
    drvStop := Except.ok ()
    drvClose := Except.ok ()
    drvNext := Except.ok ()
    drvPrev := Except.ok ()
    opSlideInfo := Except.error ""
    opNotes := Except.error ""
    statusPoll := Except.error "" }

/-- Claim C3 witness: a status command before auth on a concrete server. -/
theorem handleMessage_auth_gate_witness :
    WebSocketServer.handleMessage unauthServerState 0 InMsg.status stubCmdEnv
      = (unauthServerState, [(0, OutMsg.error "Authentication required")]) :=
  handleMessage_auth_gate unauthServerState 0
    { authenticated := false, wsOpen := true } InMsg.status stubCmdEnv
    rfl rfl rfl rfl

/-- Claim C4: token rotation notifies every open connection with a
tokenChanged message, clears the whole client registry (forcibly closing
every connection, authenticated ones included), installs the new token,
and a subsequent auth attempt presenting the old token on a fresh
connection fails and leaves that connection unauthenticated. -/
theorem token_rotation_disconnects (w : WebSocketServer) (newToken : String)
    (env : CmdEnv) (cid cid2 : Nat) (c : Client)
    (hmem : (cid, c) ∈ w.clients) (hopen : c.wsOpen = true)
    (hne : w.authToken ≠ newToken) :
    (cid, OutMsg.tokenChanged) ∈ (WebSocketServer.regenerateAuthToken w newToken).2 ∧
    (WebSocketServer.regenerateAuthToken w newToken).1.clients = [] ∧
    (WebSocketServer.regenerateAuthToken w newToken).1.authToken = newToken ∧
    WebSocketServer.handleMessage
        (WebSocketServer.onConnection
          (WebSocketServer.regenerateAuthToken w newToken).1 cid2).1
        cid2 (InMsg.auth w.authToken) env
      = ((WebSocketServer.onConnection
            (WebSocketServer.regenerateAuthToken w newToken).1 cid2).1,
         [(cid2, OutMsg.authResult false "Invalid authentication token")]) := by
  refine ⟨?_, rfl, rfl, ?_⟩
  · unfold WebSocketServer.regenerateAuthToken WebSocketServer.disconnectAllClients
    refine List.mem_filterMap.mpr ⟨(cid, c), hmem, ?_⟩
    simp [hopen]
  · unfold WebSocketServer.handleMessage WebSocketServer.onConnection
      WebSocketServer.regenerateAuthToken WebSocketServer.disconnectAllClients
      WebSocketServer.getClient WebSocketServer.send
    simp [WebSocketServer.getClient, hne]

/-- A server with one authenticated open client and one closed client,
holding the soon-to-be-rotated token. -/
def rotatedServerState : WebSocketServer :=
  { clients := [(0, { authenticated := true, wsOpen := true }),
                (1, { authenticated := false, wsOpen := false })]
    authToken := "old-token"
    presentationManager := PresentationManager.mkInit FileManager.init }

/-- Claim C4 witness: rotating to a fresh token on the concrete server. -/
theorem token_rotation_disconnects_witness :
    (0, OutMsg.tokenChanged)
        ∈ (WebSocketServer.regenerateAuthToken rotatedServerState "new-token").2 ∧
    (WebSocketServer.regenerateAuthToken rotatedServerState "new-token").1.clients = [] ∧
    (WebSocketServer.regenerateAuthToken rotatedServerState
        "new-token").1.authToken = "new-token" ∧
    WebSocketServer.handleMessage
        (WebSocketServer.onConnection
          (WebSocketServer.regenerateAuthToken rotatedServerState "new-token").1 7).1
        7 (InMsg.auth rotatedServerState.authToken) stubCmdEnv
      = ((WebSocketServer.onConnection
            (WebSocketServer.regenerateAuthToken rotatedServerState "new-token").1 7).1,
         [(7, OutMsg.authResult false "Invalid authentication token")]) :=
  token_rotation_disconnects rotatedServerState "new-token" stubCmdEnv 0 7
    { authenticated := true, wsOpen := true }
    (by decide) rfl (by decide)

/-- A second sample file for multi-file cursor scenarios. -/
def sampleFileB : PresentationFile :=
  { name := "b.pptx", path := "/p/b.pptx", extension := ".pptx",
    size := 0, modified := 0, type := "powerpoint" }

/-- A two-file registry with the cursor on the last file. -/
def twoFileState : FileManager :=
  { currentFolder := some "/p", files := [sampleFile, sampleFileB],
    currentFileIndex := 1, supportedExtensions := [".key", ".pptx", ".ppt"] }

/-- The two-file registry with the cursor on index 0. -/
def twoFileCursorZeroState : FileManager :=
  { twoFileState with currentFileIndex := 0 }

/-- Claim C5 witness: N advances return to a valid cursor position, retreat
from 0 wraps to N - 1, and the empty registry is a no-op. -/
theorem cursor_circularity_witness :
    (FileManager.nextN twoFileState.files.length twoFileState).currentFileIndex
        = twoFileState.currentFileIndex ∧
    (FileManager.prevFile twoFileCursorZeroState).2.currentFileIndex
        = (twoFileCursorZeroState.files.length : Int) - 1 ∧
    FileManager.nextFile FileManager.init = (none, FileManager.init) ∧
    FileManager.prevFile FileManager.init = (none, FileManager.init) :=
  cursor_circularity twoFileState twoFileCursorZeroState FileManager.init
    (by decide) (by decide) (by decide) (by decide) rfl rfl

/-- Claim C6 witness: the ordering, duplicate-freedom and concrete-scenario
parts at the scenario folder. -/
theorem setFolder_scan_spec_witness :
    ((FileManager.setFolder FileManager.init "/p" (.ok scenarioEntries) statZero
        asciiNameLe).files.Sorted (fun a b => asciiNameLe a.name b.name = true)) ∧
    ((FileManager.setFolder FileManager.init "/p" (.ok scenarioEntries) statZero
        asciiNameLe).files.map PresentationFile.path).Nodup ∧
    ((FileManager.setFolder FileManager.init "/p" (.ok scenarioEntries) statZero
        asciiNameLe).files.map (fun f => (f.name, f.type))
      = [("a.key", "keynote"), ("b.pptx", "powerpoint"), ("c.ppt", "powerpoint")]) :=
  (setFolder_scan_spec FileManager.init "/p" scenarioEntries statZero asciiNameLe
    (by decide) asciiNameLe_total asciiNameLe_trans (by decide)).2
